import Mathlib

/-!
# Verification of `analysis_engine/scripts/run_backtest_and_plot_history.py`

A shallow embedding of the CLI orchestration script
`run_backtest_and_plot_history.py` (the only source file of the
repository), together with theorems settling the frozen claims about it.

Modelling conventions:

* Python dictionaries carrying the algorithm configuration are embedded as
  a record `ConfigDict` whose fields are `Option`-valued: `none` means the
  key is absent from the dictionary.
* Monetary amounts and prices (Python floats) are embedded as `Rat`; every
  literal appearing in the source (`10000.0`, `6.0`, `0.01`, …) is exactly
  representable, and all comparisons the script performs on them are
  order-comparisons on such exactly representable values, so the rational
  embedding is faithful.
* Python string operations (`in`, `split`, `upper`, truthiness of the empty string)
  are embedded as executable functions on `List Char` with `String`
  wrappers.
* External collaborators (`run_custom_algo.run_custom_algo`,
  `run_algo.run_algo`, the filesystem, the parsed JSON of a config file,
  `pandas.DataFrame.to_json` success/failure) are inputs, gathered in an
  `Env` record.  The control flow of the script itself is embedded exactly.
* Connection parameters (s3 credentials, redis address, …) are copied
  verbatim by the script into the request records and never branched on;
  they are omitted from the embedded records.
* `sys.exit(1)`, early `return`, and uncaught Python exceptions
  (`KeyError`, `IndexError`, `UnboundLocalError`, `TypeError`, I/O errors)
  are distinguished terminal outcomes of the embedded run.
-/

/-! ## Python string primitives -/

/-- Test whether `l` starts with `pat`. -/
def startsWithL : List Char → List Char → Bool
  | [], _ => true
  | _ :: _, [] => false
  | p :: ps, c :: cs => if p = c then startsWithL ps cs else false

/-- The Python substring test `pat in s`, on char lists. -/
def hasSubL (pat : List Char) : List Char → Bool
  | [] => startsWithL pat []
  | c :: cs => startsWithL pat (c :: cs) || hasSubL pat cs

/-- The Python substring test `pat in s` on strings. -/
def hasSub (pat s : String) : Bool := hasSubL pat.data s.data

/-- The Python `str.split(sep)` for a one-character separator, on char
lists.  `splitOnCharL c l` is never empty. -/
def splitOnCharL (c : Char) : List Char → List (List Char)
  | [] => [[]]
  | x :: xs =>
    if x = c then [] :: splitOnCharL c xs
    else
      match splitOnCharL c xs with
      | [] => [[x]]
      | h :: t => (x :: h) :: t

/-- The Python `s.split(c)[-1]` (the split list is never empty). -/
def lastSeg (c : Char) (s : String) : String :=
  ⟨((splitOnCharL c s.data).getLast?).getD []⟩

/-- The Python `s.split(c)[-2]` (second to last segment; only used by the
script on strings guaranteed to split into at least two segments). -/
def penultSeg (c : Char) (s : String) : String :=
  ⟨(((splitOnCharL c s.data).dropLast).getLast?).getD []⟩

/-- ASCII uppercase of one character, as the Python `str.upper` does on the
ASCII range. -/
def upChar (c : Char) : Char :=
  if 'a' ≤ c ∧ c ≤ 'z' then Char.ofNat (c.toNat - 32) else c

/-- The Python `str.upper` (tickers are ASCII). -/
def pyUpper (s : String) : String := ⟨s.data.map upChar⟩

/-- Python truthiness for an optional string: `None` and the empty string are falsy.
Used wherever the script writes `if args.x:`. -/
def truthy : Option String → Option String
  | some s => if s = "" then none else some s
  | none => none

/-! ## Embedding of `datetime.strptime` with the common date format -/

/-- Is `c` an ASCII digit? -/
def isDigitL (c : Char) : Bool := 48 ≤ c.toNat && c.toNat ≤ 57

/-- Numeric value of a digit string (assumes all digits). -/
def digitsVal (l : List Char) : Nat := l.foldl (fun a c => 10 * a + (c.toNat - 48)) 0

/-- Gregorian leap year, as `datetime` uses. -/
def isLeap (y : Nat) : Bool := (y % 4 = 0 && ¬ y % 100 = 0) || y % 400 = 0

/-- Length of month `m` of year `y`, as `datetime` uses. -/
def daysInMonth (y m : Nat) : Nat :=
  if m = 2 then (if isLeap y then 29 else 28)
  else if m = 4 || m = 6 || m = 9 || m = 11 then 30
  else 31

/-- Success of `datetime.datetime.strptime` with the `%Y-%m-%d` format: the string is
`Y-M-D` where `Y` is exactly four digits (the CPython `%Y` pattern), `M` and
`D` are one or two digits, and the triple is a real calendar date
(`datetime` requires `1 ≤ year`, `1 ≤ month ≤ 12`,
`1 ≤ day ≤ daysInMonth`). -/
def strptimeYmd (s : String) : Bool :=
  match splitOnCharL '-' s.data with
  | [y, m, d] =>
    y.all isDigitL && m.all isDigitL && d.all isDigitL &&
    decide (y.length = 4) && decide (1 ≤ digitsVal y) &&
    decide (1 ≤ m.length) && decide (m.length ≤ 2) &&
    decide (1 ≤ digitsVal m) && decide (digitsVal m ≤ 12) &&
    decide (1 ≤ d.length) && decide (d.length ≤ 2) &&
    decide (1 ≤ digitsVal d) && decide (digitsVal d ≤ daysInMonth (digitsVal y) (digitsVal m))
  | _ => false

/-! ## Data model -/

/-- Result status constants from `analysis_engine.consts` (the module is
not part of the repository sources; only the distinction
`SUCCESS` / not-`SUCCESS` is branched on by the script). -/
inductive Status
  | SUCCESS
  | FAILED
  | ERRORED
deriving DecidableEq

/-- The dictionary returned by `run_custom_algo.run_custom_algo` and
`run_algo.run_algo`: a status, an optional error message.  (The `rec`
payload of the default run is delivered through
`algo_obj.get_history_dataset()`, modelled separately in `Env`.) -/
structure ResultEnvelope where
  status : Status
  err : Option String := none
deriving DecidableEq

/-- The algorithm config dictionary.  `none` = key absent. -/
structure ConfigDict where
  name : Option String := none
  algo_path : Option String := none
  balance : Option Rat := none
  commission : Option Rat := none
  ticker : Option String := none
  timeseries : Option String := none
  trade_strategy : Option String := none
  auto_fill : Option Bool := none
  verbose : Option Bool := none
  verbose_processor : Option Bool := none
  verbose_indicators : Option Bool := none
  inspect_datasets : Option Bool := none
  run_this_date : Option String := none
deriving DecidableEq

/-- The `build_example_algo_config` helper (source lines 185-306), restricted to the
keys the rest of the script reads.  Note the produced dictionary has no
`auto_fill`, `trade_strategy`, `algo_path` or `run_this_date` key. -/
def build_example_algo_config (ticker : String) (timeseries : String) : ConfigDict :=
  { name := some "backtest"
    timeseries := some timeseries
    balance := some 10000
    commission := some 6
    ticker := some ticker
    verbose := some false
    verbose_processor := some false
    verbose_indicators := some false
    inspect_datasets := some false }

/-- The command-line arguments accepted by the script (source lines
400-637), restricted to those its control flow reads.  `argparse` makes
`-t` mandatory and delivers every other string argument as `None` when
omitted. -/
structure Args where
  ticker : String
  algo_extract_loc : Option String := none
  history_json_file : Option String := none
  backtest_loc : Option String := none
  run_on_engine : Bool := false
  start_date : Option String := none
  end_date : Option String := none
  run_algo_in_file : Option String := none
  algo_history_loc : Option String := none
  algo_report_loc : Option String := none
  config_file : Option String := none
  verbose_algo : Bool := false
  verbose_processor : Bool := false
  verbose_indicators : Bool := false
  inspect_datasets : Bool := false
  run_this_date : Option String := none
  debug : Bool := false
deriving DecidableEq

/-- One row of the per-ticker trading history `DataFrame`. -/
structure HistoryRow where
  date : String
  minute : String
  close : Rat
  balance : Rat
deriving DecidableEq

/-- A value stored under a ticker key of the history dataset: either a
tabular series (`pandas.DataFrame`, which has a `to_json` attribute) or
some other object (no `to_json` attribute). -/
inductive HistEntry
  | tabular (rows : List HistoryRow)
  | other
deriving DecidableEq

/-- The value of `algo_obj.get_history_dataset()`: the algorithm display name under
the `algo_name` key plus per-ticker entries. -/
structure HistoryDataset where
  algoName : String
  entries : List (String × HistEntry)
deriving DecidableEq

/-- Python dict lookup `d[t]` over the per-ticker entries (`none` models
the `KeyError` case). -/
def lookupEntry (ds : HistoryDataset) (t : String) : Option HistEntry :=
  (ds.entries.find? (fun p => p.1 = t)).map (·.2)

/-- Modelled from the spec: `ae_consts.TICKER`, the default ticker used
when `-t` is supplied as an empty (falsy) string.  `analysis_engine.consts`
is not part of the repository sources; the end-to-end examples of the spec use
`SPY`. -/
def ae_TICKER : String := "SPY"

/-- Local `use_balance` (source line 640): never reassigned. -/
def use_balance : Rat := 10000

/-- Local `use_commission` (source line 641): never reassigned. -/
def use_commission : Rat := 6

/-! ## Transport reference handling -/

/-- The validity test the script applies to each `-b`/`-p`/`-o`/`-e`
location string (source lines 841-843, 1096-1098 and analogues): at least
one of the three scheme markers occurs *somewhere in* the string (Python
`in`, an occurrence test, deliberately not anchored — the spec notes the
three checks are "not mutually exclusive by construction"). -/
def locRecognized (loc : String) : Bool :=
  hasSub "file:/" loc || hasSub "s3://" loc || hasSub "redis://" loc

/-- The resolved location fields of one dataset channel
(`load_from_s3_bucket` / `load_from_s3_key` / `load_from_redis_key` /
`load_from_file` and their history/report/extract analogues). -/
structure LoadFields where
  s3b : Option String := none
  s3k : Option String := none
  rk : Option String := none
  file : Option String := none
deriving DecidableEq

/-- Transport dispatch on a recognized location string (source lines
1114-1120, identically 853-859 etc.): s3 takes the last two `/`-segments,
redis the last `/`-segment, file the text after the *last* `:`. -/
def parseLoadFields (loc : String) : LoadFields :=
  if hasSub "s3://" loc then
    { s3b := some (penultSeg '/' loc), s3k := some (lastSeg '/' loc) }
  else if hasSub "redis://" loc then
    { rk := some (lastSeg '/' loc) }
  else if hasSub "file:/" loc then
    { file := some (lastSeg ':' loc) }
  else {}

/-- A structured view of the same dispatch, for stating recovery
theorems: which transport was chosen and what it carries. -/
inductive LoadSrc
  | s3 (bucket key : String)
  | redis (key : String)
  | file (path : String)
deriving DecidableEq

/-- The full location resolution the script performs on a backtest
location string: reject when no scheme marker occurs, otherwise dispatch
as `parseLoadFields` does. -/
def parseLoc (loc : String) : Option LoadSrc :=
  if ¬ locRecognized loc then none
  else if hasSub "s3://" loc then some (.s3 (penultSeg '/' loc) (lastSeg '/' loc))
  else if hasSub "redis://" loc then some (.redis (lastSeg '/' loc))
  else some (.file (lastSeg ':' loc))

/-- The publish/load request record, restricted to the channel fields the
script reads or writes (connection parameters are copied verbatim and
omitted, see the header). -/
structure PublishReq where
  ticker : String
  label : String := ""
  output_file : Option String := none
  s3_bucket : Option String := none
  s3_key : Option String := none
  redis_key : Option String := none
  s3_enabled : Bool := false
  redis_enabled : Bool := false
deriving DecidableEq

/-- Modelled from the spec: `analysis_engine.build_publish_request` is not
part of the repository sources.  Per spec §4.2 the builder populates
exactly the channels whose location fields are present (Python-truthy) and
marks them enabled, leaving absent channels disabled. -/
def build_publish_request (ticker : String) (output_file s3_bucket s3_key redis_key : Option String)
    (label : String) : PublishReq :=
  { ticker := ticker
    label := label
    output_file := truthy output_file
    s3_bucket := truthy s3_bucket
    s3_key := truthy s3_key
    redis_key := truthy redis_key
    s3_enabled := (truthy s3_bucket).isSome && (truthy s3_key).isSome
    redis_enabled := (truthy redis_key).isSome }

/-- The post-processing the script applies to the built load request
(source lines 1141-1149): re-assert the parsed fields and enabled flags,
each guarded by Python truthiness. -/
def applyLoadOverrides (f : LoadFields) (r : PublishReq) : PublishReq :=
  let r1 := match truthy f.file with
    | some p => { r with output_file := some p }
    | none => r
  let r2 := match truthy f.rk with
    | some k => { r1 with redis_key := some k, redis_enabled := true }
    | none => r1
  match truthy f.s3b, truthy f.s3k with
  | some b, some k => { r2 with s3_bucket := some b, s3_key := some k, s3_enabled := true }
  | _, _ => r2

/-- Building the load request for a recognized backtest location (source
lines 1109-1149). -/
def resolveLoad (ticker loc : String) : PublishReq :=
  let f := parseLoadFields loc
  applyLoadOverrides f (build_publish_request ticker f.file f.s3b f.s3k f.rk ("load-" ++ loc))

/-- Channel `i` of a request is populated and enabled: the local-file
channel is active when its field is set, the s3/cache channels when the
fields are set and the flag is on. -/
def PublishReq.activeCount (r : PublishReq) : Nat :=
  (if r.output_file.isSome then 1 else 0) +
  (if r.s3_bucket.isSome && r.s3_key.isSome && r.s3_enabled then 1 else 0) +
  (if r.redis_key.isSome && r.redis_enabled then 1 else 0)

/-! ## Argument processing (source lines 639-813) -/

/-- Reasons for the `sys.exit(1)` calls of the script. -/
inductive FailReason
  | badStartDate
  | badEndDate
  | missingAlgoFile
  | missingConfigFile
  | missingConfigAlgoPath
  | invalidBacktestLoc
  | invalidHistoryLoc
  | invalidReportLoc
  | invalidExtractLoc
  | customAlgoFailed
deriving DecidableEq

/-- Uncaught Python exceptions the script can raise. -/
inductive CrashKind
  | typeError
  | nameError
  | keyError
  | indexError
  | ioError
deriving DecidableEq

/-- Result of one stage: continue with a value, `sys.exit(1)`, or an
uncaught exception. -/
inductive StepRes (α : Type)
  | ok (a : α)
  | exit1 (r : FailReason)
  | crash (k : CrashKind)
deriving DecidableEq

/-- The external collaborators and I/O surface of one invocation. -/
structure Env where
  pathExists : String → Bool
  configAt : String → ConfigDict
  customResult : ResultEnvelope
  defaultResult : ResultEnvelope
  historyDataset : HistoryDataset
  toJsonOk : Bool

/-- The `ticker` local after source lines 639/740-741: the uppercased `-t` value,
or the module default when `-t` is falsy. -/
def effTicker (args : Args) : String :=
  match truthy (some args.ticker) with
  | some t => pyUpper t
  | none => ae_TICKER

/-- The local variables of `run_backtest_and_plot_history` that survive
argument processing. -/
structure ArgState where
  ticker : String
  use_start_date : Option String := none
  use_end_date : Option String := none
  history_json_file : Option String := none
  run_this_date : Option String := none
  algo_mod_path : Option String := none
  config_dict : ConfigDict
deriving DecidableEq

/-- Source lines 790-813: resolve `-g` and `-c`.  A config file replaces
the whole config dictionary, its `algo_path` key (defaulting to the `-g`
path) must name an existing file; `os.path.exists(None)` raises
`TypeError`. -/
def resolveAlgoModule (cfg0 : ConfigDict) (args : Args) (env : Env) (base : ArgState) :
    StepRes ArgState :=
  let withG : StepRes (Option String) :=
    match truthy args.run_algo_in_file with
    | some f => if env.pathExists f then .ok (some f) else .exit1 .missingAlgoFile
    | none => .ok none
  match withG with
  | .exit1 r => .exit1 r
  | .crash k => .crash k
  | .ok amp =>
    match truthy args.config_file with
    | none => .ok { base with algo_mod_path := amp, config_dict := cfg0 }
    | some cf =>
      if env.pathExists cf then
        match (match (env.configAt cf).algo_path with | some p => some p | none => amp) with
        | none => .crash .typeError
        | some p =>
          if env.pathExists p then
            .ok { base with algo_mod_path := some p, config_dict := env.configAt cf }
          else .exit1 .missingConfigAlgoPath
      else .exit1 .missingConfigFile

/-- Source lines 639-813: ticker, date validation (start then end; the
`-j` run date is stored without validation), then module/config
resolution. -/
def processArgs (cfg0 : ConfigDict) (args : Args) (env : Env) : StepRes ArgState :=
  let base : ArgState :=
    { ticker := effTicker args
      history_json_file := truthy args.history_json_file
      run_this_date := truthy args.run_this_date
      config_dict := cfg0 }
  match truthy args.start_date with
  | some sd =>
    if strptimeYmd sd then
      let base := { base with use_start_date := some (sd ++ " 00:00:00") }
      match truthy args.end_date with
      | some ed =>
        if strptimeYmd ed then
          resolveAlgoModule cfg0 args env { base with use_end_date := some (ed ++ " 00:00:00") }
        else .exit1 .badEndDate
      | none => resolveAlgoModule cfg0 args env base
    else .exit1 .badStartDate
  | none =>
    match truthy args.end_date with
    | some ed =>
      if strptimeYmd ed then
        resolveAlgoModule cfg0 args env { base with use_end_date := some (ed ++ " 00:00:00") }
      else .exit1 .badEndDate
    | none => resolveAlgoModule cfg0 args env base

/-- Source lines 815-832, "Finalize the algo config": ticker, balance and
commission are overwritten unconditionally with the CLI ticker and the
built-in `use_balance` / `use_commission`; each verbosity flag and the run
date are written only when set. -/
def finalizeConfig (args : Args) (a : ArgState) : ConfigDict :=
  { a.config_dict with
    ticker := some a.ticker
    balance := some use_balance
    commission := some use_commission
    verbose := if args.verbose_algo then some true else a.config_dict.verbose
    verbose_processor :=
      if args.verbose_processor then some true else a.config_dict.verbose_processor
    verbose_indicators :=
      if args.verbose_indicators then some true else a.config_dict.verbose_indicators
    inspect_datasets :=
      if args.inspect_datasets then some true else a.config_dict.inspect_datasets
    run_this_date := match a.run_this_date with
      | some d => some d
      | none => a.config_dict.run_this_date }

/-! ## The custom-algorithm phase (source lines 834-1092) -/

/-- The arguments of interest in the `run_custom_algo.run_custom_algo`
call (source lines 953-1030). -/
structure CustomCall where
  mod_path : String
  ticker : Option String
  balance : Option Rat
  commission : Option Rat
  name : String
  auto_fill : Bool
  timeseries : String
  trade_strategy : String
  run_on_engine : Bool
  load_from_s3_bucket : Option String := none
  load_from_s3_key : Option String := none
  load_from_redis_key : Option String := none
  load_from_file : Option String := none
deriving DecidableEq

/-- Outcome of the custom-algorithm block. -/
inductive CustomRes
  | notTaken
  | exitedBefore (r : FailReason)
  | crashedAfter (call : CustomCall) (k : CrashKind)
  | failedAfter (call : CustomCall)
  | passed (call : CustomCall)
deriving DecidableEq

/-- The per-channel transport validation inside the custom block (source
lines 839-852 and the three analogous blocks): when the argument is
truthy and no scheme marker occurs in it, `sys.exit(1)`. -/
def customLocCheck (loc : Option String) (r : FailReason) : Option FailReason :=
  match truthy loc with
  | some s => if locRecognized s then none else some r
  | none => none

/-- The `run_custom_algo` call record of source lines 953-1030, with
`commission = config_dict [ balance ]` (source line 957, mirrored
verbatim). -/
def customCallOf (mp : String) (cfg : ConfigDict) (args : Args) : CustomCall :=
  { mod_path := mp
    ticker := cfg.ticker
    balance := cfg.balance
    commission := cfg.balance
    name := cfg.name.getD "missing-algo-name"
    auto_fill := cfg.auto_fill.getD true
    timeseries := cfg.timeseries.getD "minute"
    trade_strategy := cfg.trade_strategy.getD "count"
    run_on_engine := args.run_on_engine
    load_from_s3_bucket := (match truthy args.backtest_loc with
      | some bl => parseLoadFields bl
      | none => {}).s3b
    load_from_s3_key := (match truthy args.backtest_loc with
      | some bl => parseLoadFields bl
      | none => {}).s3k
    load_from_redis_key := (match truthy args.backtest_loc with
      | some bl => parseLoadFields bl
      | none => {}).rk
    load_from_file := (match truthy args.backtest_loc with
      | some bl => parseLoadFields bl
      | none => {}).file }

/-- Source lines 1032-1092, after the `run_custom_algo` call: the display
labels read the bare locals `algo_extract_loc` / `algo_history_loc` /
`algo_report_loc` (source lines 1034-1039), raising `UnboundLocalError`
(a `NameError`) whenever the corresponding argument was not supplied;
otherwise, when `-d` was not given and the envelope status is not
SUCCESS, `sys.exit(1)`. -/
def customTail (call : CustomCall) (args : Args) (env : Env) : CustomRes :=
  if (truthy args.algo_extract_loc).isNone ||
     (truthy args.algo_history_loc).isNone ||
     (truthy args.algo_report_loc).isNone then
    .crashedAfter call .nameError
  else if args.debug then .passed call
  else if env.customResult.status = .SUCCESS then .passed call
  else .failedAfter call

/-- Source lines 834-1092.  When a custom module path is set: validate
the four channel locations in order, invoke `run_custom_algo` with the
arguments of `customCallOf`, then run the label/status tail. -/
def customPhase (cfg : ConfigDict) (a : ArgState) (args : Args) (env : Env) : CustomRes :=
  match a.algo_mod_path with
  | none => .notTaken
  | some mp =>
    match customLocCheck args.backtest_loc .invalidBacktestLoc with
    | some r => .exitedBefore r
    | none =>
      match customLocCheck args.algo_history_loc .invalidHistoryLoc with
      | some r => .exitedBefore r
      | none =>
        match customLocCheck args.algo_report_loc .invalidReportLoc with
        | some r => .exitedBefore r
        | none =>
          match customLocCheck args.algo_extract_loc .invalidExtractLoc with
          | some r => .exitedBefore r
          | none => customTail (customCallOf mp cfg args) args env

/-! ## The load-request phase (source lines 1094-1149) -/

/-- Source lines 1094-1149: when `-b` is truthy, reject unrecognized
strings, otherwise parse it and build the load request. -/
def loadPhase (ticker : String) (args : Args) : StepRes (Option PublishReq) :=
  match truthy args.backtest_loc with
  | none => .ok none
  | some bl =>
    if locRecognized bl then .ok (some (resolveLoad ticker bl))
    else .exit1 .invalidBacktestLoc

/-! ## The presenter (source lines 1180-1243) -/

/-- Outcome of the history/plotting tail of the script. -/
inductive PresentRes
  | crashed (k : CrashKind)
  | nothingToPlot
  | plotted (saved : Bool) (filteredCloses : List Rat)
deriving DecidableEq

/-- The row mask of source line 1214, as the row filter it induces:
`df_filter = history_df close-column above 0.01`. -/
def historyRowFilter (rows : List HistoryRow) : List HistoryRow :=
  rows.filter (fun r => decide ((0.01 : Rat) < r.close))

/-- Source lines 1180-1243.  `trading_history_dict[ticker]` raises
`KeyError` when the ticker is absent; a value without `to_json` returns
silently; when `-f` was given the series is serialized first (`to_json`
failure propagates); reading `iloc 0` of the date column raises `IndexError` on
an empty frame; the `timeseries` dictionary access raises `KeyError` when the
key is absent; then the row mask is built and the plot drawn. -/
def presenterPhase (ticker : String) (history_json_file : Option String)
    (timeseries : Option String) (ds : HistoryDataset) (toJsonOk : Bool) : PresentRes :=
  match lookupEntry ds ticker with
  | none => .crashed .keyError
  | some .other => .nothingToPlot
  | some (.tabular rows) =>
    match (match history_json_file with
      | some _ => if toJsonOk then StepRes.ok true else StepRes.crash CrashKind.ioError
      | none => StepRes.ok false) with
    | .crash k => .crashed k
    | .exit1 _ => .nothingToPlot
    | .ok saved =>
      match rows with
      | [] => .crashed .indexError
      | _ :: _ =>
        match timeseries with
        | none => .crashed .keyError
        | some _ => .plotted saved ((historyRowFilter rows).map (·.close))

/-! ## The whole invocation -/

/-- Terminal outcome of one invocation of
`run_backtest_and_plot_history`. -/
inductive Outcome
  | exited (r : FailReason)
  | defaultFailedReturn
  | nothingToPlotReturn
  | crashed (k : CrashKind)
  | plotted
deriving DecidableEq

/-- Observable trace of one invocation: the terminal outcome plus what was
resolved, which collaborators were invoked, and what was plotted. -/
structure RunTrace where
  outcome : Outcome
  resolvedConfig : Option ConfigDict := none
  customCall : Option CustomCall := none
  defaultExecuted : Bool := false
  loadConfig : Option PublishReq := none
  filteredCloses : Option (List Rat) := none
deriving DecidableEq

/-- The process exit code of the invocation: `sys.exit(1)` and an
uncaught exception exit with 1, every `return` path with 0. -/
def RunTrace.exitCode (t : RunTrace) : Nat :=
  match t.outcome with
  | .exited _ => 1
  | .crashed _ => 1
  | _ => 0

/-- Source lines 1094-1243: everything after the custom block. -/
def afterCustom (cfg : ConfigDict) (a : ArgState) (args : Args) (env : Env)
    (call : Option CustomCall) : RunTrace :=
  match loadPhase a.ticker args with
  | .exit1 r =>
    { outcome := .exited r, resolvedConfig := some cfg, customCall := call }
  | .crash k =>
    { outcome := .crashed k, resolvedConfig := some cfg, customCall := call }
  | .ok lc =>
    if env.defaultResult.status = .SUCCESS then
      match presenterPhase a.ticker a.history_json_file cfg.timeseries
          env.historyDataset env.toJsonOk with
      | .crashed k =>
        { outcome := .crashed k, resolvedConfig := some cfg, customCall := call
          defaultExecuted := true, loadConfig := lc }
      | .nothingToPlot =>
        { outcome := .nothingToPlotReturn, resolvedConfig := some cfg, customCall := call
          defaultExecuted := true, loadConfig := lc }
      | .plotted _ fc =>
        { outcome := .plotted, resolvedConfig := some cfg, customCall := call
          defaultExecuted := true, loadConfig := lc, filteredCloses := some fc }
    else
      { outcome := .defaultFailedReturn, resolvedConfig := some cfg, customCall := call
        defaultExecuted := true, loadConfig := lc }

/-- The whole of `run_backtest_and_plot_history` (source lines 389-1245)
as a function of the initial config dictionary, the parsed arguments and
the collaborators. -/
def runBacktest (cfg0 : ConfigDict) (args : Args) (env : Env) : RunTrace :=
  match processArgs cfg0 args env with
  | .exit1 r => { outcome := .exited r }
  | .crash k => { outcome := .crashed k }
  | .ok a =>
    match customPhase (finalizeConfig args a) a args env with
    | .exitedBefore r =>
      { outcome := .exited r, resolvedConfig := some (finalizeConfig args a) }
    | .crashedAfter c k =>
      { outcome := .crashed k, resolvedConfig := some (finalizeConfig args a)
        customCall := some c }
    | .failedAfter c =>
      { outcome := .exited .customAlgoFailed, resolvedConfig := some (finalizeConfig args a)
        customCall := some c }
    | .notTaken => afterCustom (finalizeConfig args a) a args env none
    | .passed c => afterCustom (finalizeConfig args a) a args env (some c)

/-! ## A baseline concrete scenario (shared by witnesses and
counterexamples) -/

/-- The example config for `SPY` per-minute runs, as
`start_backtest_with_plot_history` builds it. -/
def okCfg : ConfigDict := build_example_algo_config "SPY" "minute"

/-- A minimal valid invocation: just `-t SPY`. -/
def okArgs : Args := { ticker := "SPY" }

/-- Two unremarkable history rows. -/
def okRows : List HistoryRow :=
  [ { date := "2018-11-29", minute := "2018-11-29 09:30:00", close := 280, balance := 10000 }
  , { date := "2018-11-29", minute := "2018-11-29 09:31:00", close := 281, balance := 10000 } ]

/-- A benign environment: all paths exist, both collaborator runs
succeed, the history dataset holds a non-empty SPY frame, serialization
succeeds. -/
def okEnv : Env :=
  { pathExists := fun _ => true
    configAt := fun _ => {}
    customResult := { status := .SUCCESS }
    defaultResult := { status := .SUCCESS }
    historyDataset := { algoName := "backtest", entries := [("SPY", .tabular okRows)] }
    toJsonOk := true }

/-- The finalized config of the baseline invocation. -/
def okResolved : ConfigDict :=
  { okCfg with ticker := some "SPY", balance := some 10000, commission := some 6 }

/-! ## Claim C3: the plotting row filter -/

/-- The history series of the example in the claim: close prices
`[0.0, 0.005, 0.01, 0.02, 5.0]`. -/
def c3Rows : List HistoryRow :=
  [ { date := "d", minute := "m1", close := 0.0, balance := 10000 }
  , { date := "d", minute := "m2", close := 0.005, balance := 10000 }
  , { date := "d", minute := "m3", close := 0.01, balance := 10000 }
  , { date := "d", minute := "m4", close := 0.02, balance := 10000 }
  , { date := "d", minute := "m5", close := 5.0, balance := 10000 } ]

/-! ## Claim C4: commission argument of the custom-algorithm call -/

/-- An invocation taking the custom-algorithm path: `-g algo.py` plus
history/report/extract locations (without which the script cannot even
reach its status check, see `customPhase`). -/
def c4args : Args :=
  { ticker := "SPY"
    run_algo_in_file := some "algo.py"
    algo_history_loc := some "file:/hist.json"
    algo_report_loc := some "file:/report.json"
    algo_extract_loc := some "file:/extract.json" }

/-! ## Claim C1: config precedence -/

/-- The config file of the C1 scenario: it sets `balance` to `5000.0`
(and must name an existing algorithm module to be accepted at all). -/
def c1fileCfg : ConfigDict :=
  { balance := some 5000
    algo_path := some "algo.py"
    timeseries := some "minute"
    name := some "custom-algo" }

/-- Arguments `-t SPY -c cfg.json` plus the channel locations the custom path
needs. -/
def c1args : Args :=
  { ticker := "SPY"
    config_file := some "cfg.json"
    algo_history_loc := some "file:/hist.json"
    algo_report_loc := some "file:/report.json"
    algo_extract_loc := some "file:/extract.json" }

/-- The benign environment serving the C1 config file. -/
def c1env : Env := { okEnv with configAt := fun _ => c1fileCfg }

/-! ## Claim C7: date validation -/

/-- Arguments `-t SPY -j 11/29/2018`: an unparsable specific run date. -/
def c7args : Args := { ticker := "SPY", run_this_date := some "11/29/2018" }

/-! ## Claim C6: rejection of unrecognized transport references -/

/-- Arguments `-t SPY -b ftp://bad`: a backtest location matching no scheme
marker. -/
def c6args : Args := { ticker := "SPY", backtest_loc := some "ftp://bad" }

/-- The argument state the baseline invocations resolve to. -/
def okArgState : ArgState := { ticker := "SPY", config_dict := okCfg }

/-! ## Claim C2: exit codes on non-SUCCESS envelopes -/

/-- A benign environment whose default-algorithm run fails. -/
def defFailEnv : Env := { okEnv with defaultResult := { status := .FAILED } }

/-- A benign environment whose custom-module run fails. -/
def customFailEnv : Env := { okEnv with customResult := { status := .FAILED } }

/-- Arguments `-t SPY -g algo.py` plus `-p`, `-o`, `-e` locations: the custom path
with all locations supplied. -/
def c10args : Args :=
  { ticker := "SPY"
    run_algo_in_file := some "algo.py"
    algo_history_loc := some "file:/hist.json"
    algo_report_loc := some "file:/report.json"
    algo_extract_loc := some "file:/extract.json" }

/-! ## Claim C8: persistence failure during history saving -/

/-- Did the presenter reach the plotting call? -/
def PresentRes.isPlotted : PresentRes → Bool
  | .plotted _ _ => true
  | _ => false

/-- Arguments `-t SPY -f /bad/path.json`: a configured history persistence path. -/
def c8args : Args := { ticker := "SPY", history_json_file := some "/bad/path.json" }

/-- The benign environment in which `to_json` fails. -/
def c8env : Env := { okEnv with toJsonOk := false }

/-! ## Claim C9: absent, non-tabular, or empty history series -/

/-- A history dataset with no entry for `SPY`. -/
def c9ds : HistoryDataset := { algoName := "backtest", entries := [] }

/-! ## Lemmas and claim theorems -/

/-- C3, counterexample.  The example in the claim is wrong on the code: the
filter of source line 1214 keeps every row with close strictly above
`0.01`, so the series `[0.0, 0.005, 0.01, 0.02, 5.0]` retains the rows
with closes `0.02` *and* `5.0`, not only the one with `5.0`. -/
theorem c3_filter_example_counterexample :
    (historyRowFilter c3Rows).map (fun r => r.close) = [0.02, 5.0] ∧
      ([(0.02 : Rat), 5.0] ≠ [(5.0 : Rat)]) := by
  constructor
  · norm_num [historyRowFilter, c3Rows, List.filter]
  · intro h
    exact absurd (List.head_eq_of_cons_eq h) (by norm_num)

/-- C3, amended: the plotting row filter keeps exactly the rows whose
close price is strictly above `0.01` (so it excludes exactly those at or
below `0.01`); on the example series `[0.0, 0.005, 0.01, 0.02, 5.0]` it
retains the rows with closes `0.02` and `5.0`. -/
theorem c3_row_filter (rows : List HistoryRow) (r : HistoryRow) (h : r ∈ rows) :
    (r ∈ historyRowFilter rows ↔ (0.01 : Rat) < r.close) ∧
      (historyRowFilter c3Rows).map (fun r => r.close) = [0.02, 5.0] := by
  constructor
  · rw [historyRowFilter, List.mem_filter]
    simp [h]
  · norm_num [historyRowFilter, c3Rows, List.filter]

/-- C3 witness: the row with close `0.02` is in the example series and is
kept by the filter. -/
theorem c3_row_filter_witness :
    ({ date := "d", minute := "m4", close := 0.02, balance := 10000 } : HistoryRow) ∈
        historyRowFilter c3Rows ∧
      (historyRowFilter c3Rows).map (fun r => r.close) = [0.02, 5.0] := by
  have h := c3_row_filter c3Rows
    { date := "d", minute := "m4", close := 0.02, balance := 10000 }
    (by norm_num [c3Rows])
  exact ⟨h.1.mpr (by norm_num), h.2⟩

/-- C4: source line 957 passes the balance entry as the commission keyword, so
the commission argument of `run_custom_algo` equals the resolved balance
(`10000.0`), not the resolved commission (`6.0`).  The claim states the
evident intent of the code; the code slips. -/
theorem c4_commission_is_balance :
    ((runBacktest okCfg c4args okEnv).customCall.map (fun c => c.commission)) =
        some (some (10000 : Rat)) ∧
      ((runBacktest okCfg c4args okEnv).resolvedConfig.map (fun c => c.commission)) =
        some (some (6 : Rat)) ∧
      some (some (10000 : Rat)) ≠ some (some (6 : Rat)) := by
  refine ⟨by decide, by decide, ?_⟩
  simp only [ne_eq, Option.some.injEq]
  norm_num

/-! ## Claim C5: transport reference recovery -/

/-- C5, counterexample.  The claim reads the recovered local path as "the
text after the first `:`"; the code takes `backtest_loc.split(':')[-1]`,
the text after the *last* `:` (source line 1120).  On the valid local
reference `file:/a:b` the code recovers `b`, not `/a:b`. -/
theorem c5_first_colon_counterexample :
    parseLoc "file:/a:b" = some (.file "b") ∧ "b" ≠ "/a:b" := by
  refine ⟨by decide, by decide⟩

/-! ## Lemmas about the Python string primitives -/

theorem startsWithL_append (pat t : List Char) : startsWithL pat (pat ++ t) = true := by
  induction pat with
  | nil => rfl
  | cons p ps ih => simp [startsWithL, ih]

theorem hasSubL_of_starts {pat l : List Char} (h : startsWithL pat l = true) :
    hasSubL pat l = true := by
  cases l with
  | nil => simpa [hasSubL] using h
  | cons c cs => simp [hasSubL, h]

theorem startsWithL_mem {pat l : List Char} (h : startsWithL pat l = true) :
    ∀ x ∈ pat, x ∈ l := by
  induction pat generalizing l with
  | nil => intro x hx; cases hx
  | cons p ps ih =>
    cases l with
    | nil => cases h
    | cons c cs =>
      rw [startsWithL] at h
      by_cases hpc : p = c
      · rw [if_pos hpc] at h
        intro x hx
        rcases List.mem_cons.mp hx with hx | hx
        · exact hx ▸ hpc ▸ List.mem_cons_self c cs
        · exact List.mem_cons_of_mem c (ih h x hx)
      · rw [if_neg hpc] at h; cases h

theorem hasSubL_mem {pat l : List Char} (h : hasSubL pat l = true) :
    ∀ x ∈ pat, x ∈ l := by
  induction l with
  | nil =>
    intro x hx
    rw [hasSubL] at h
    exact absurd hx ((List.eq_nil_iff_forall_not_mem.mp (by
      cases pat with
      | nil => rfl
      | cons p ps => cases h)) x)
  | cons c cs ih =>
    rw [hasSubL, Bool.or_eq_true] at h
    rcases h with h | h
    · exact startsWithL_mem h
    · exact fun x hx => List.mem_cons_of_mem c (ih h x hx)

theorem hasSubL_eq_false_of_not_mem {pat l : List Char} {x : Char}
    (hx : x ∈ pat) (hl : x ∉ l) : hasSubL pat l = false := by
  cases h : hasSubL pat l
  · rfl
  · exact absurd (hasSubL_mem h x hx) hl

theorem splitOnCharL_ne_nil (c : Char) (l : List Char) : splitOnCharL c l ≠ [] := by
  cases l with
  | nil => simp [splitOnCharL]
  | cons x xs =>
    rw [splitOnCharL]
    by_cases h : x = c
    · simp [h]
    · rw [if_neg h]
      cases splitOnCharL c xs <;> simp

theorem splitOnCharL_free {c : Char} {l : List Char} (h : c ∉ l) :
    splitOnCharL c l = [l] := by
  induction l with
  | nil => rfl
  | cons x xs ih =>
    have hx : ¬ x = c := fun he => h (he ▸ List.mem_cons_self x xs)
    rw [splitOnCharL, if_neg hx, ih (fun hm => h (List.mem_cons_of_mem x hm))]

theorem splitOnCharL_append {c : Char} {l : List Char} (ys : List Char) (h : c ∉ l) :
    splitOnCharL c (l ++ c :: ys) = l :: splitOnCharL c ys := by
  induction l with
  | nil => simp [splitOnCharL]
  | cons x xs ih =>
    have hx : ¬ x = c := fun he => h (he ▸ List.mem_cons_self x xs)
    rw [List.cons_append, splitOnCharL, if_neg hx,
      ih (fun hm => h (List.mem_cons_of_mem x hm))]

theorem truthy_none : truthy none = none := rfl

theorem truthy_some {s : String} (h : s.data ≠ []) : truthy (some s) = some s := by
  rw [truthy, if_neg]
  intro he
  exact h (by rw [he])

theorem data_ne_nil_append (s t : String) (h : s.data ≠ []) : (s ++ t).data ≠ [] := by
  rw [String.data_append]
  intro hc
  exact h (List.append_eq_nil.mp hc).1

/-- C5, amended.  Transport resolution takes the text after the *last*
`:` for local references (equal to the text after the first `:` whenever
the path has no further `:`), the last two `/`-segments for s3
references, and the last `/`-segment for cache references; on such
single-scheme references with separator-free segments, exactly one
channel of the resulting load request is populated and enabled. -/
theorem c5_transport_recovery :
    (∀ t p : String, ':' ∉ p.data →
      parseLoc ("file:/" ++ p) = some (.file ("/" ++ p)) ∧
        (resolveLoad t ("file:/" ++ p)).activeCount = 1) ∧
    (∀ t b k : String, ':' ∉ b.data → ':' ∉ k.data → '/' ∉ b.data → '/' ∉ k.data →
      b.data ≠ [] → k.data ≠ [] →
      parseLoc ("s3://" ++ b ++ "/" ++ k) = some (.s3 b k) ∧
        (resolveLoad t ("s3://" ++ b ++ "/" ++ k)).activeCount = 1) ∧
    (∀ t k : String, ':' ∉ k.data → '/' ∉ k.data → k.data ≠ [] →
      parseLoc ("redis://" ++ k) = some (.redis k) ∧
        (resolveLoad t ("redis://" ++ k)).activeCount = 1) := by
  refine ⟨?_, ?_, ?_⟩
  · -- local file references
    intro t p hp
    have hdata : ("file:/" ++ p).data = 'f' :: 'i' :: 'l' :: 'e' :: ':' :: '/' :: p.data := by
      rw [String.data_append]; rfl
    have hfile : hasSub "file:/" ("file:/" ++ p) = true := by
      rw [hasSub, String.data_append]
      exact hasSubL_of_starts (startsWithL_append _ _)
    have hs3 : hasSub "s3://" ("file:/" ++ p) = false := by
      rw [hasSub, hdata]
      simp only [hasSubL, startsWithL]
      simp [hasSubL_eq_false_of_not_mem (show ':' ∈ "s3://".data by decide) hp]
    have hredis : hasSub "redis://" ("file:/" ++ p) = false := by
      rw [hasSub, hdata]
      simp only [hasSubL, startsWithL]
      simp [hasSubL_eq_false_of_not_mem (show ':' ∈ "redis://".data by decide) hp]
    have hcolon : ':' ∉ ('/' :: p.data) := by
      intro hm
      rcases List.mem_cons.mp hm with h | h
      · exact absurd h (by decide)
      · exact hp h
    have hsplit : splitOnCharL ':' ("file:/" ++ p).data = [['f', 'i', 'l', 'e'], '/' :: p.data] := by
      rw [hdata]
      have hshape : ('f' :: 'i' :: 'l' :: 'e' :: ':' :: '/' :: p.data) =
          ['f', 'i', 'l', 'e'] ++ ':' :: ('/' :: p.data) := rfl
      rw [hshape, splitOnCharL_append _ (by decide), splitOnCharL_free hcolon]
    have hlast : lastSeg ':' ("file:/" ++ p) = "/" ++ p := by
      apply String.ext
      rw [lastSeg, hsplit]
      rw [String.data_append]
      rfl
    constructor
    · rw [parseLoc, locRecognized, hfile, hs3, hredis, hlast]
      rfl
    · rw [resolveLoad, parseLoadFields, hs3, hredis, hfile]
      simp only [if_true, if_false, Bool.false_eq_true, ite_false, ite_true]
      rw [hlast]
      have hne : ("/" ++ p).data ≠ [] := data_ne_nil_append "/" p (by decide)
      simp [build_publish_request, applyLoadOverrides, truthy_some hne, truthy_none,
        PublishReq.activeCount]
  · -- s3 references
    intro t b k hcb hck hsb hsk hbne hkne
    have hdata : ("s3://" ++ b ++ "/" ++ k).data =
        's' :: '3' :: ':' :: '/' :: '/' :: (b.data ++ '/' :: k.data) := by
      rw [String.data_append, String.data_append, String.data_append]
      simp
    have hs3 : hasSub "s3://" ("s3://" ++ b ++ "/" ++ k) = true := by
      rw [hasSub, hdata]
      have hshape : ('s' :: '3' :: ':' :: '/' :: '/' :: (b.data ++ '/' :: k.data)) =
          "s3://".data ++ (b.data ++ '/' :: k.data) := rfl
      rw [hshape]
      exact hasSubL_of_starts (startsWithL_append _ _)
    have hsplit : splitOnCharL '/' ("s3://" ++ b ++ "/" ++ k).data =
        [['s', '3', ':'], [], b.data, k.data] := by
      rw [hdata]
      have hshape : ('s' :: '3' :: ':' :: '/' :: '/' :: (b.data ++ '/' :: k.data)) =
          ['s', '3', ':'] ++ '/' :: ('/' :: (b.data ++ '/' :: k.data)) := rfl
      rw [hshape, splitOnCharL_append _ (by decide)]
      rw [show splitOnCharL '/' ('/' :: (b.data ++ '/' :: k.data)) =
        [] :: splitOnCharL '/' (b.data ++ '/' :: k.data) from by rw [splitOnCharL, if_pos rfl]]
      rw [splitOnCharL_append _ hsb, splitOnCharL_free hsk]
    have hlast : lastSeg '/' ("s3://" ++ b ++ "/" ++ k) = k := by
      apply String.ext
      rw [lastSeg, hsplit]
      rfl
    have hpen : penultSeg '/' ("s3://" ++ b ++ "/" ++ k) = b := by
      apply String.ext
      rw [penultSeg, hsplit]
      rfl
    constructor
    · rw [parseLoc, locRecognized, hs3, hlast, hpen]
      simp
    · rw [resolveLoad, parseLoadFields, hs3]
      simp only [if_true]
      rw [hlast, hpen]
      simp [build_publish_request, applyLoadOverrides, truthy_some hbne, truthy_some hkne,
        truthy_none, PublishReq.activeCount]
  · -- redis references
    intro t k hck hsk hkne
    have hdata : ("redis://" ++ k).data =
        'r' :: 'e' :: 'd' :: 'i' :: 's' :: ':' :: '/' :: '/' :: k.data := by
      rw [String.data_append]; rfl
    have hs3 : hasSub "s3://" ("redis://" ++ k) = false := by
      rw [hasSub, hdata]
      simp only [hasSubL, startsWithL]
      simp [hasSubL_eq_false_of_not_mem (show ':' ∈ "s3://".data by decide) hck]
    have hredis : hasSub "redis://" ("redis://" ++ k) = true := by
      rw [hasSub, String.data_append]
      exact hasSubL_of_starts (startsWithL_append _ _)
    have hsplit : splitOnCharL '/' ("redis://" ++ k).data =
        [['r', 'e', 'd', 'i', 's', ':'], [], k.data] := by
      rw [hdata]
      have hshape : ('r' :: 'e' :: 'd' :: 'i' :: 's' :: ':' :: '/' :: '/' :: k.data) =
          ['r', 'e', 'd', 'i', 's', ':'] ++ '/' :: ('/' :: k.data) := rfl
      rw [hshape, splitOnCharL_append _ (by decide)]
      rw [show splitOnCharL '/' ('/' :: k.data) = [] :: splitOnCharL '/' k.data from by
        rw [splitOnCharL, if_pos rfl]]
      rw [splitOnCharL_free hsk]
    have hlast : lastSeg '/' ("redis://" ++ k) = k := by
      apply String.ext
      rw [lastSeg, hsplit]
      rfl
    constructor
    · rw [parseLoc, locRecognized, hs3, hredis, hlast]
      simp
    · rw [resolveLoad, parseLoadFields, hs3, hredis]
      simp only [if_true, if_false, Bool.false_eq_true, ite_false, ite_true]
      rw [hlast]
      simp [build_publish_request, applyLoadOverrides, truthy_some hkne, truthy_none,
        PublishReq.activeCount]

/-- C5 witness: the three recovery equations at the example
references. -/
theorem c5_transport_recovery_witness :
    (parseLoc ("file:/" ++ "opt/sa/SPY.json") = some (.file ("/" ++ "opt/sa/SPY.json")) ∧
      (resolveLoad "SPY" ("file:/" ++ "opt/sa/SPY.json")).activeCount = 1) ∧
    (parseLoc ("s3://" ++ "algoready" ++ "/" ++ "SPY-latest.json") =
        some (.s3 "algoready" "SPY-latest.json") ∧
      (resolveLoad "SPY" ("s3://" ++ "algoready" ++ "/" ++ "SPY-latest.json")).activeCount = 1) ∧
    (parseLoc ("redis://" ++ "SPY-latest") = some (.redis "SPY-latest") ∧
      (resolveLoad "SPY" ("redis://" ++ "SPY-latest")).activeCount = 1) :=
  ⟨c5_transport_recovery.1 "SPY" "opt/sa/SPY.json" (by decide),
   c5_transport_recovery.2.1 "SPY" "algoready" "SPY-latest.json" (by decide) (by decide)
     (by decide) (by decide) (by decide) (by decide),
   c5_transport_recovery.2.2 "SPY" "SPY-latest" (by decide) (by decide) (by decide)⟩

/-! ## Structural lemmas about the embedded run -/

theorem resolveAlgoModule_ok {cfg0 : ConfigDict} {args : Args} {env : Env}
    {base a : ArgState} (h : resolveAlgoModule cfg0 args env base = .ok a) :
    a.ticker = base.ticker ∧ a.use_start_date = base.use_start_date ∧
      a.use_end_date = base.use_end_date ∧
      a.history_json_file = base.history_json_file ∧
      a.run_this_date = base.run_this_date ∧
      a.config_dict = (match truthy args.config_file with
        | some cf => env.configAt cf
        | none => cfg0) := by
  rw [resolveAlgoModule] at h
  split at h
  · exact absurd h (by simp)
  · exact absurd h (by simp)
  · split at h
    next heq =>
      simp only [StepRes.ok.injEq] at h
      subst h
      simp [heq]
    next cf heq =>
      split at h
      · split at h
        · exact absurd h (by simp)
        · split at h
          · simp only [StepRes.ok.injEq] at h
            subst h
            simp [heq]
          · exact absurd h (by simp)
      · exact absurd h (by simp)

theorem processArgs_ok_shape {cfg0 : ConfigDict} {args : Args} {env : Env} {a : ArgState}
    (h : processArgs cfg0 args env = .ok a) :
    a.ticker = effTicker args ∧ a.history_json_file = truthy args.history_json_file ∧
      a.run_this_date = truthy args.run_this_date ∧
      a.config_dict = (match truthy args.config_file with
        | some cf => env.configAt cf
        | none => cfg0) := by
  rw [processArgs] at h
  split at h
  · split at h
    · split at h
      · split at h
        · have h1 := resolveAlgoModule_ok h
          exact ⟨h1.1, h1.2.2.2.1, h1.2.2.2.2.1, h1.2.2.2.2.2⟩
        · exact absurd h (by simp)
      · have h1 := resolveAlgoModule_ok h
        exact ⟨h1.1, h1.2.2.2.1, h1.2.2.2.2.1, h1.2.2.2.2.2⟩
    · exact absurd h (by simp)
  · split at h
    · split at h
      · have h1 := resolveAlgoModule_ok h
        exact ⟨h1.1, h1.2.2.2.1, h1.2.2.2.2.1, h1.2.2.2.2.2⟩
      · exact absurd h (by simp)
    · have h1 := resolveAlgoModule_ok h
      exact ⟨h1.1, h1.2.2.2.1, h1.2.2.2.2.1, h1.2.2.2.2.2⟩

theorem afterCustom_resolvedConfig (cfg : ConfigDict) (a : ArgState) (args : Args) (env : Env)
    (call : Option CustomCall) :
    (afterCustom cfg a args env call).resolvedConfig = some cfg := by
  rw [afterCustom]
  split
  · rfl
  · rfl
  · split
    · split <;> rfl
    · rfl

theorem runBacktest_resolvedConfig (cfg0 : ConfigDict) (args : Args) (env : Env) :
    (runBacktest cfg0 args env).resolvedConfig = none ∨
      ∃ a, processArgs cfg0 args env = .ok a ∧
        (runBacktest cfg0 args env).resolvedConfig = some (finalizeConfig args a) := by
  rw [runBacktest]
  split
  · exact Or.inl rfl
  · exact Or.inl rfl
  · rename_i a ha
    refine Or.inr ⟨a, ha, ?_⟩
    split
    · rfl
    · rfl
    · rfl
    · exact afterCustom_resolvedConfig _ _ _ _ _
    · exact afterCustom_resolvedConfig _ _ _ _ _

theorem customLocCheck_some {loc : Option String} {r r' : FailReason}
    (h : customLocCheck loc r = some r') : r' = r := by
  rw [customLocCheck] at h
  split at h
  · split at h
    · cases h
    · injection h with h
      exact h.symm
  · cases h

theorem customTail_ne_exitedBefore (call : CustomCall) (args : Args) (env : Env)
    (r : FailReason) : customTail call args env ≠ .exitedBefore r := by
  rw [customTail]
  split
  · simp
  · split
    · simp
    · split <;> simp

theorem customTail_crashed {call : CustomCall} {args : Args} {env : Env} {c : CustomCall}
    {k : CrashKind} (h : customTail call args env = .crashedAfter c k) :
    ((truthy args.algo_extract_loc).isNone || (truthy args.algo_history_loc).isNone ||
      (truthy args.algo_report_loc).isNone) = true := by
  rw [customTail] at h
  split at h
  · assumption
  · split at h
    · cases h
    · split at h <;> cases h

theorem customTail_passed {call : CustomCall} {args : Args} {env : Env} {c : CustomCall}
    (h : customTail call args env = .passed c) :
    args.debug = true ∨ env.customResult.status = .SUCCESS := by
  rw [customTail] at h
  split at h
  · cases h
  · split at h
    · exact Or.inl (by assumption)
    · split at h
      · exact Or.inr (by assumption)
      · cases h

theorem customPhase_exitedBefore {cfg : ConfigDict} {a : ArgState} {args : Args} {env : Env}
    {r : FailReason} (h : customPhase cfg a args env = .exitedBefore r) :
    customLocCheck args.backtest_loc .invalidBacktestLoc = some r ∨
      customLocCheck args.algo_history_loc .invalidHistoryLoc = some r ∨
      customLocCheck args.algo_report_loc .invalidReportLoc = some r ∨
      customLocCheck args.algo_extract_loc .invalidExtractLoc = some r := by
  rw [customPhase] at h
  split at h
  · cases h
  · split at h
    next r1 heq =>
      injection h with h
      exact Or.inl (h ▸ heq)
    next heq1 =>
      split at h
      next r2 heq =>
        injection h with h
        exact Or.inr (Or.inl (h ▸ heq))
      next heq2 =>
        split at h
        next r3 heq =>
          injection h with h
          exact Or.inr (Or.inr (Or.inl (h ▸ heq)))
        next heq3 =>
          split at h
          next r4 heq =>
            injection h with h
            exact Or.inr (Or.inr (Or.inr (h ▸ heq)))
          next heq4 => exact absurd h (customTail_ne_exitedBefore _ _ _ _)

theorem customPhase_crashed {cfg : ConfigDict} {a : ArgState} {args : Args} {env : Env}
    {c : CustomCall} {k : CrashKind} (h : customPhase cfg a args env = .crashedAfter c k) :
    ((truthy args.algo_extract_loc).isNone || (truthy args.algo_history_loc).isNone ||
      (truthy args.algo_report_loc).isNone) = true := by
  rw [customPhase] at h
  split at h
  · cases h
  · split at h
    · cases h
    · split at h
      · cases h
      · split at h
        · cases h
        · split at h
          · cases h
          · exact customTail_crashed h

theorem customPhase_passed {cfg : ConfigDict} {a : ArgState} {args : Args} {env : Env}
    {c : CustomCall} (h : customPhase cfg a args env = .passed c) :
    args.debug = true ∨ env.customResult.status = .SUCCESS := by
  rw [customPhase] at h
  split at h
  · cases h
  · split at h
    · cases h
    · split at h
      · cases h
      · split at h
        · cases h
        · split at h
          · cases h
          · exact customTail_passed h

theorem afterCustom_customCall (cfg : ConfigDict) (a : ArgState) (args : Args) (env : Env)
    (call : Option CustomCall) : (afterCustom cfg a args env call).customCall = call := by
  rw [afterCustom]
  split
  · rfl
  · rfl
  · split
    · split <;> rfl
    · rfl

theorem afterCustom_exit {cfg : ConfigDict} {a : ArgState} {args : Args} {env : Env}
    {call : Option CustomCall} {r : FailReason} (hl : loadPhase a.ticker args = .exit1 r) :
    afterCustom cfg a args env call =
      { outcome := .exited r, resolvedConfig := some cfg, customCall := call } := by
  rw [afterCustom, hl]

theorem afterCustom_default_fail {cfg : ConfigDict} {a : ArgState} {args : Args} {env : Env}
    {call : Option CustomCall} {lc : Option PublishReq}
    (hl : loadPhase a.ticker args = .ok lc) (hs : ¬ env.defaultResult.status = .SUCCESS) :
    afterCustom cfg a args env call =
      { outcome := .defaultFailedReturn, resolvedConfig := some cfg, customCall := call
        defaultExecuted := true, loadConfig := lc } := by
  rw [afterCustom, hl]
  simp only [if_neg hs]

theorem afterCustom_ok_defaultExecuted {cfg : ConfigDict} {a : ArgState} {args : Args}
    {env : Env} {call : Option CustomCall} {lc : Option PublishReq}
    (hl : loadPhase a.ticker args = .ok lc) :
    (afterCustom cfg a args env call).defaultExecuted = true := by
  rw [afterCustom]
  split
  next r heq => rw [hl] at heq; cases heq
  next k heq => rw [hl] at heq; cases heq
  next lc2 heq =>
    split
    · split <;> rfl
    · rfl

theorem afterCustom_defaultExecuted_ok {cfg : ConfigDict} {a : ArgState} {args : Args}
    {env : Env} {call : Option CustomCall}
    (h : (afterCustom cfg a args env call).defaultExecuted = true) :
    ∃ lc, loadPhase a.ticker args = .ok lc := by
  rw [afterCustom] at h
  split at h
  · cases h
  · cases h
  · next lc hl => exact ⟨lc, hl⟩

theorem afterCustom_ok_not_exited {cfg : ConfigDict} {a : ArgState} {args : Args}
    {env : Env} {call : Option CustomCall} {lc : Option PublishReq}
    (hl : loadPhase a.ticker args = .ok lc) (r : FailReason) :
    ¬ (afterCustom cfg a args env call).outcome = .exited r := by
  rw [afterCustom]
  split
  next r2 heq => rw [hl] at heq; cases heq
  next k heq => rw [hl] at heq; cases heq
  next lc2 heq =>
    split
    · split <;> simp
    · simp

theorem runBacktest_ok {cfg0 : ConfigDict} {args : Args} {env : Env} {a : ArgState}
    (ha : processArgs cfg0 args env = .ok a) :
    runBacktest cfg0 args env =
      match customPhase (finalizeConfig args a) a args env with
      | .exitedBefore r =>
        { outcome := .exited r, resolvedConfig := some (finalizeConfig args a) }
      | .crashedAfter c k =>
        { outcome := .crashed k, resolvedConfig := some (finalizeConfig args a)
          customCall := some c }
      | .failedAfter c =>
        { outcome := .exited .customAlgoFailed, resolvedConfig := some (finalizeConfig args a)
          customCall := some c }
      | .notTaken => afterCustom (finalizeConfig args a) a args env none
      | .passed c => afterCustom (finalizeConfig args a) a args env (some c) := by
  rw [runBacktest, ha]

/-- C1, counterexample.  A config file setting `balance` to `5000.0` does
not make the effective balance `5000.0`: source line 820 overwrites
the balance entry with the built-in `use_balance = 10000.0` after
the file is merged, so the resolved balance is `10000.0`. -/
theorem c1_file_balance_ignored :
    (c1env.configAt "cfg.json").balance = some 5000 ∧
      ((runBacktest okCfg c1args c1env).resolvedConfig.map (fun c => c.balance)) =
        some (some (10000 : Rat)) ∧
      ¬ ((runBacktest okCfg c1args c1env).resolvedConfig.map (fun c => c.balance)) =
        some (some (5000 : Rat)) := by
  refine ⟨by decide, by decide, ?_⟩
  intro h
  rw [show (runBacktest okCfg c1args c1env).resolvedConfig.map (fun c => c.balance) =
    some (some (10000 : Rat)) from by decide] at h
  simp only [Option.some.injEq] at h
  norm_num at h

/-- C1, amended.  The `balance`, `commission` and `ticker` of the config file
never take effect: after the file is merged, source lines 819-821
unconditionally overwrite them with the CLI ticker and the built-in
defaults `10000.0` / `6.0`.  The claimed precedence survives only for the
fields the finalize step does not touch: for example the file value of
`timeseries` is what the resolved configuration carries. -/
theorem c1_defaults_overwrite (cfg0 : ConfigDict) (args : Args) (env : Env) (c : ConfigDict)
    (h : (runBacktest cfg0 args env).resolvedConfig = some c) :
    c.balance = some use_balance ∧ c.commission = some use_commission ∧
      c.ticker = some (effTicker args) ∧
      (∀ cf, truthy args.config_file = some cf →
        c.timeseries = (env.configAt cf).timeseries) := by
  rcases runBacktest_resolvedConfig cfg0 args env with hn | ⟨a, ha, hs⟩
  · rw [hn] at h; cases h
  · rw [hs] at h
    injection h with h
    have hshape := processArgs_ok_shape ha
    subst h
    refine ⟨rfl, rfl, ?_, ?_⟩
    · show some a.ticker = some (effTicker args)
      rw [hshape.1]
    · intro cf hcf
      show a.config_dict.timeseries = (env.configAt cf).timeseries
      rw [hshape.2.2.2, hcf]

/-- C1 witness: the amended statement evaluated on the baseline `-t SPY`
invocation. -/
theorem c1_defaults_overwrite_witness :
    okResolved.balance = some use_balance ∧ okResolved.commission = some use_commission :=
  ⟨(c1_defaults_overwrite okCfg okArgs okEnv okResolved (by decide)).1,
   (c1_defaults_overwrite okCfg okArgs okEnv okResolved (by decide)).2.1⟩

/-- C7, counterexample.  The specific run date (`-j`) is *not* validated:
with the unparsable run date `11/29/2018` the run completes and plots,
and the resolved configuration carries the bad date verbatim. -/
theorem c7_run_date_not_validated :
    strptimeYmd "11/29/2018" = false ∧
      (runBacktest okCfg c7args okEnv).outcome = .plotted ∧
      ((runBacktest okCfg c7args okEnv).resolvedConfig.map (fun c => c.run_this_date)) =
        some (some "11/29/2018") := by
  refine ⟨by decide, by decide, by decide⟩

/-- C7, amended.  Only the start and end dates are validated against
`YYYY-MM-DD`: an unparsable start (resp. end) date exits with status 1
before anything runs, `2018-11-29` parses while `2018-13-40` and
`11/29/2018` do not — but the specific run date (`-j`) is stored into the
run configuration without any validation. -/
theorem c7_date_validation (cfg0 : ConfigDict) (args : Args) (env : Env) :
    (∀ sd, truthy args.start_date = some sd → strptimeYmd sd = false →
      runBacktest cfg0 args env = { outcome := .exited .badStartDate }) ∧
    (∀ ed, truthy args.end_date = some ed → strptimeYmd ed = false →
      (∀ sd, truthy args.start_date = some sd → strptimeYmd sd = true) →
      runBacktest cfg0 args env = { outcome := .exited .badEndDate }) ∧
    strptimeYmd "2018-11-29" = true ∧
    strptimeYmd "2018-13-40" = false ∧
    strptimeYmd "11/29/2018" = false ∧
    (∀ c rd, (runBacktest cfg0 args env).resolvedConfig = some c →
      truthy args.run_this_date = some rd → c.run_this_date = some rd) := by
  refine ⟨?_, ?_, by decide, by decide, by decide, ?_⟩
  · intro sd h1 h2
    have hp : processArgs cfg0 args env = .exit1 .badStartDate := by
      rw [processArgs]
      simp [h1, h2]
    rw [runBacktest, hp]
  · intro ed h1 h2 h3
    have hp : processArgs cfg0 args env = .exit1 .badEndDate := by
      rw [processArgs]
      cases hsd : truthy args.start_date with
      | none => simp [hsd, h1, h2]
      | some sd => simp [hsd, h3 sd hsd, h1, h2]
    rw [runBacktest, hp]
  · intro c rd h1 h2
    rcases runBacktest_resolvedConfig cfg0 args env with hn | ⟨a, ha, hs⟩
    · rw [hn] at h1; cases h1
    · rw [hs] at h1
      injection h1 with h1
      have hshape := processArgs_ok_shape ha
      have hr : a.run_this_date = some rd := by rw [hshape.2.2.1, h2]
      subst h1
      show (match a.run_this_date with
        | some d => some d
        | none => a.config_dict.run_this_date) = some rd
      rw [hr]

/-- C7 witness: an unparsable start date exits with `badStartDate`. -/
theorem c7_date_validation_witness :
    runBacktest okCfg { okArgs with start_date := some "2018-13-40" } okEnv =
      { outcome := .exited .badStartDate } :=
  (c7_date_validation okCfg { okArgs with start_date := some "2018-13-40" } okEnv).1
    "2018-13-40" (by decide) (by decide)

/-- C6: when argument processing succeeds and a backtest location is
supplied, a location in which none of the three scheme markers occurs
exits with status 1 before either algorithm collaborator is invoked, and
a location in which a marker does occur is never rejected with the
invalid-backtest-location error. -/
theorem c6_invalid_transport (cfg0 : ConfigDict) (args : Args) (env : Env) (a : ArgState)
    (bl : String) (ha : processArgs cfg0 args env = .ok a)
    (hb : truthy args.backtest_loc = some bl) :
    (locRecognized bl = false →
      (runBacktest cfg0 args env).outcome = .exited .invalidBacktestLoc ∧
        (runBacktest cfg0 args env).customCall = none ∧
        (runBacktest cfg0 args env).defaultExecuted = false) ∧
    (locRecognized bl = true →
      ¬ (runBacktest cfg0 args env).outcome = .exited .invalidBacktestLoc) := by
  constructor
  · intro hrec
    have hload : loadPhase a.ticker args = .exit1 .invalidBacktestLoc := by
      rw [loadPhase, hb]
      simp [hrec]
    cases ham : a.algo_mod_path with
    | none =>
      have hc : customPhase (finalizeConfig args a) a args env = .notTaken := by
        rw [customPhase, ham]
      rw [runBacktest_ok ha, hc, afterCustom_exit hload]
      exact ⟨rfl, rfl, rfl⟩
    | some mp =>
      have hcheck : customLocCheck args.backtest_loc .invalidBacktestLoc =
          some .invalidBacktestLoc := by
        rw [customLocCheck, hb]
        simp [hrec]
      have hc : customPhase (finalizeConfig args a) a args env =
          .exitedBefore .invalidBacktestLoc := by
        rw [customPhase, ham, hcheck]
      rw [runBacktest_ok ha, hc]
      exact ⟨rfl, rfl, rfl⟩
  · intro hrec
    have hcheck : customLocCheck args.backtest_loc .invalidBacktestLoc = none := by
      rw [customLocCheck, hb]
      simp [hrec]
    have hload : loadPhase a.ticker args = .ok (some (resolveLoad a.ticker bl)) := by
      rw [loadPhase, hb]
      simp [hrec]
    rw [runBacktest_ok ha]
    cases hc : customPhase (finalizeConfig args a) a args env with
    | exitedBefore r =>
      rcases customPhase_exitedBefore hc with h | h | h | h
      · rw [hcheck] at h; cases h
      · have := customLocCheck_some h
        subst this
        simp
      · have := customLocCheck_some h
        subst this
        simp
      · have := customLocCheck_some h
        subst this
        simp
    | crashedAfter c k => simp
    | failedAfter c => simp
    | notTaken => exact afterCustom_ok_not_exited hload _
    | passed c => exact afterCustom_ok_not_exited hload _

/-- C6 witness: `-b ftp://bad` is rejected before any execution. -/
theorem c6_invalid_transport_witness :
    (runBacktest okCfg c6args okEnv).outcome = .exited .invalidBacktestLoc ∧
      (runBacktest okCfg c6args okEnv).customCall = none ∧
      (runBacktest okCfg c6args okEnv).defaultExecuted = false :=
  (c6_invalid_transport okCfg c6args okEnv okArgState "ftp://bad"
    (by decide) (by decide)).1 (by decide)

/-- C2, counterexample.  When the default example run returns a
non-SUCCESS envelope, the script `return`s (source line 1172) instead of
calling `sys.exit(1)`: the process exits 0 despite the failure, refuting
both halves of the claim. -/
theorem c2_default_failure_exits_zero :
    ¬ defFailEnv.defaultResult.status = .SUCCESS ∧
      (runBacktest okCfg okArgs defFailEnv).defaultExecuted = true ∧
      (runBacktest okCfg okArgs defFailEnv).outcome = .defaultFailedReturn ∧
      (runBacktest okCfg okArgs defFailEnv).exitCode = 0 ∧
      ¬ (0 : Nat) = 1 := by
  refine ⟨by decide, by decide, by decide, by decide, by decide⟩

/-- C2, amended.  A non-SUCCESS envelope from the *custom-module* run
exits with code 1 (when `-d` is off and the label building does not
crash first); a non-SUCCESS envelope from the *default example* run makes
the script return early with exit code 0. -/
theorem c2_exit_codes (cfg0 : ConfigDict) (args : Args) (env : Env) :
    ((runBacktest cfg0 args env).customCall.isSome = true →
      args.debug = false →
      ¬ env.customResult.status = .SUCCESS →
      (truthy args.algo_extract_loc).isNone = false →
      (truthy args.algo_history_loc).isNone = false →
      (truthy args.algo_report_loc).isNone = false →
      (runBacktest cfg0 args env).outcome = .exited .customAlgoFailed ∧
        (runBacktest cfg0 args env).exitCode = 1) ∧
    ((runBacktest cfg0 args env).defaultExecuted = true →
      ¬ env.defaultResult.status = .SUCCESS →
      (runBacktest cfg0 args env).outcome = .defaultFailedReturn ∧
        (runBacktest cfg0 args env).exitCode = 0) := by
  constructor
  · intro h1 hd hs he hh hr
    cases hp : processArgs cfg0 args env with
    | exit1 r => rw [runBacktest, hp] at h1; simp at h1
    | crash k => rw [runBacktest, hp] at h1; simp at h1
    | ok a =>
      rw [runBacktest_ok hp] at h1 ⊢
      cases hc : customPhase (finalizeConfig args a) a args env with
      | exitedBefore r => rw [hc] at h1; simp at h1
      | crashedAfter c k =>
        have := customPhase_crashed hc
        rw [he, hh, hr] at this
        simp at this
      | failedAfter c => exact ⟨rfl, rfl⟩
      | notTaken =>
        rw [hc] at h1
        rw [afterCustom_customCall] at h1
        simp at h1
      | passed c =>
        rcases customPhase_passed hc with h | h
        · rw [hd] at h; cases h
        · exact absurd h hs
  · intro h1 hs
    cases hp : processArgs cfg0 args env with
    | exit1 r => rw [runBacktest, hp] at h1; simp at h1
    | crash k => rw [runBacktest, hp] at h1; simp at h1
    | ok a =>
      rw [runBacktest_ok hp] at h1 ⊢
      cases hc : customPhase (finalizeConfig args a) a args env with
      | exitedBefore r => rw [hc] at h1; simp at h1
      | crashedAfter c k => rw [hc] at h1; simp at h1
      | failedAfter c => rw [hc] at h1; simp at h1
      | notTaken =>
        rw [hc] at h1
        rcases afterCustom_defaultExecuted_ok h1 with ⟨lc, hl⟩
        show (afterCustom (finalizeConfig args a) a args env none).outcome =
            .defaultFailedReturn ∧
          (afterCustom (finalizeConfig args a) a args env none).exitCode = 0
        rw [afterCustom_default_fail hl hs]
        exact ⟨rfl, rfl⟩
      | passed c =>
        rw [hc] at h1
        rcases afterCustom_defaultExecuted_ok h1 with ⟨lc, hl⟩
        show (afterCustom (finalizeConfig args a) a args env (some c)).outcome =
            .defaultFailedReturn ∧
          (afterCustom (finalizeConfig args a) a args env (some c)).exitCode = 0
        rw [afterCustom_default_fail hl hs]
        exact ⟨rfl, rfl⟩

/-- C2 witness: a failing custom run (with `-d` off) exits 1. -/
theorem c2_exit_codes_witness :
    (runBacktest okCfg c10args customFailEnv).outcome = .exited .customAlgoFailed ∧
      (runBacktest okCfg c10args customFailEnv).exitCode = 1 :=
  (c2_exit_codes okCfg c10args customFailEnv).1 (by decide) (by decide) (by decide)
    (by decide) (by decide) (by decide)

/-! ## Claim C10: the default example run -/

/-- C10, counterexample.  An invocation that passes all validation but
whose custom-module run returns a non-SUCCESS envelope exits 1 *before*
the default example algorithm runs: the default run is not executed in
every invocation that passes validation. -/
theorem c10_custom_failure_skips_default :
    (runBacktest okCfg c10args customFailEnv).resolvedConfig.isSome = true ∧
      (runBacktest okCfg c10args customFailEnv).customCall.isSome = true ∧
      (runBacktest okCfg c10args customFailEnv).outcome = .exited .customAlgoFailed ∧
      (runBacktest okCfg c10args customFailEnv).defaultExecuted = false := by
  refine ⟨by decide, by decide, by decide, by decide⟩

/-- C10, amended.  Whenever argument processing succeeds, the
custom-module phase does not terminate the process (absent, or passed),
and the load phase accepts, the default example algorithm is executed —
even when a custom run already executed — and a non-SUCCESS envelope
from it stops the run (early return) before anything is plotted. -/
theorem c10_default_always_runs (cfg0 : ConfigDict) (args : Args) (env : Env)
    (a : ArgState) (lc : Option PublishReq)
    (ha : processArgs cfg0 args env = .ok a)
    (hc : customPhase (finalizeConfig args a) a args env = .notTaken ∨
      ∃ c, customPhase (finalizeConfig args a) a args env = .passed c)
    (hl : loadPhase a.ticker args = .ok lc) :
    (runBacktest cfg0 args env).defaultExecuted = true ∧
      (¬ env.defaultResult.status = .SUCCESS →
        (runBacktest cfg0 args env).outcome = .defaultFailedReturn ∧
          (runBacktest cfg0 args env).filteredCloses = none) := by
  rw [runBacktest_ok ha]
  rcases hc with hc | ⟨c, hc⟩ <;> rw [hc]
  · show (afterCustom (finalizeConfig args a) a args env none).defaultExecuted = true ∧
      (¬ env.defaultResult.status = .SUCCESS →
        (afterCustom (finalizeConfig args a) a args env none).outcome =
            .defaultFailedReturn ∧
          (afterCustom (finalizeConfig args a) a args env none).filteredCloses = none)
    refine ⟨afterCustom_ok_defaultExecuted hl, fun hs => ?_⟩
    rw [afterCustom_default_fail hl hs]
    exact ⟨rfl, rfl⟩
  · show (afterCustom (finalizeConfig args a) a args env (some c)).defaultExecuted = true ∧
      (¬ env.defaultResult.status = .SUCCESS →
        (afterCustom (finalizeConfig args a) a args env (some c)).outcome =
            .defaultFailedReturn ∧
          (afterCustom (finalizeConfig args a) a args env (some c)).filteredCloses = none)
    refine ⟨afterCustom_ok_defaultExecuted hl, fun hs => ?_⟩
    rw [afterCustom_default_fail hl hs]
    exact ⟨rfl, rfl⟩

/-- C10 witness: in the baseline invocation with a failing default run,
the default algorithm executed and the run stopped before plotting. -/
theorem c10_default_always_runs_witness :
    (runBacktest okCfg okArgs defFailEnv).defaultExecuted = true ∧
      (runBacktest okCfg okArgs defFailEnv).outcome = .defaultFailedReturn ∧
      (runBacktest okCfg okArgs defFailEnv).filteredCloses = none :=
  have h := c10_default_always_runs okCfg okArgs defFailEnv okArgState none
    (by decide) (Or.inl (by decide)) (by decide)
  ⟨h.1, (h.2 (by decide)).1, (h.2 (by decide)).2⟩

/-- C8, counterexample.  `history_df.to_json(...)` (source lines
1189-1192) is not wrapped in any try/except: when serialization fails the
exception propagates, the process dies with exit code 1, and plotting
never happens — the failure is neither merely "reported" nor does
plotting proceed. -/
theorem c8_save_failure_blocks_plotting :
    (runBacktest okCfg c8args c8env).outcome = .crashed .ioError ∧
      (runBacktest okCfg c8args c8env).filteredCloses = none ∧
      (runBacktest okCfg c8args c8env).exitCode = 1 := by
  refine ⟨by decide, by decide, by decide⟩

/-- C8, amended.  With a configured history persistence path, a
serialization failure raises an uncaught exception that aborts the run
before plotting: the presenter crashes instead of degrading
gracefully. -/
theorem c8_save_failure_propagates (ticker f : String) (ts : Option String)
    (ds : HistoryDataset) (rows : List HistoryRow)
    (hlook : lookupEntry ds ticker = some (.tabular rows)) :
    presenterPhase ticker (some f) ts ds false = .crashed .ioError ∧
      (presenterPhase ticker (some f) ts ds false).isPlotted = false := by
  rw [presenterPhase.eq_def, hlook]
  exact ⟨rfl, rfl⟩

/-- C8 witness: the amended statement on the baseline SPY dataset. -/
theorem c8_save_failure_propagates_witness :
    presenterPhase "SPY" (some "/bad/path.json") (some "minute")
        okEnv.historyDataset false = .crashed .ioError ∧
      (presenterPhase "SPY" (some "/bad/path.json") (some "minute")
        okEnv.historyDataset false).isPlotted = false :=
  c8_save_failure_propagates "SPY" "/bad/path.json" (some "minute")
    okEnv.historyDataset okRows (by decide)

/-- C9, counterexample.  When the history series of the ticker is absent from
the result, `trading_history_dict[ticker]` (source line 1181) raises
`KeyError`: the presenter crashes instead of returning a "nothing to
plot" outcome. -/
theorem c9_missing_series_raises :
    presenterPhase "SPY" none (some "minute") c9ds true = .crashed .keyError ∧
      ¬ (PresentRes.crashed .keyError = PresentRes.nothingToPlot) := by
  refine ⟨by decide, by decide⟩

/-- C9, amended.  Only the "present but not a recognized tabular series"
case returns a graceful "nothing to plot": an absent ticker raises
`KeyError` at the dictionary lookup, and a present-but-empty tabular
series raises `IndexError` at `iloc 0` of the date column (source line
1196). -/
theorem c9_presenter_behavior (ticker : String) (hjf : Option String) (ts : Option String)
    (ds : HistoryDataset) :
    (lookupEntry ds ticker = none →
      presenterPhase ticker hjf ts ds true = .crashed .keyError) ∧
    (lookupEntry ds ticker = some .other →
      presenterPhase ticker hjf ts ds true = .nothingToPlot) ∧
    (lookupEntry ds ticker = some (.tabular []) →
      presenterPhase ticker hjf ts ds true = .crashed .indexError) := by
  refine ⟨?_, ?_, ?_⟩
  · intro h
    rw [presenterPhase.eq_def, h]
  · intro h
    rw [presenterPhase.eq_def, h]
  · intro h
    rw [presenterPhase.eq_def, h]
    cases hjf <;> rfl

/-- C9 witness: the three behaviors at concrete datasets. -/
theorem c9_presenter_behavior_witness :
    presenterPhase "SPY" none (some "minute")
        { algoName := "backtest", entries := [("SPY", .other)] } true = .nothingToPlot ∧
      presenterPhase "SPY" none (some "minute")
        { algoName := "backtest", entries := [("SPY", .tabular [])] } true =
        .crashed .indexError :=
  ⟨(c9_presenter_behavior "SPY" none (some "minute")
      { algoName := "backtest", entries := [("SPY", .other)] }).2.1 (by decide),
   (c9_presenter_behavior "SPY" none (some "minute")
      { algoName := "backtest", entries := [("SPY", .tabular [])] }).2.2 (by decide)⟩
